import Mathlib

/-!
Shallow embedding of the request-scoped database connection manager
(`src/web/db.py`), the request-aware logger (`src/web/logger.py`) and the
health endpoint of `kalivaraprasad-gonapa/azure-mcp`.

Connections are modelled by `Nat` identifiers; the flask request context `g`
is an association list from string keys to connection identifiers; the set of
physically open connections and the emitted log lines are threaded through a
`DBState` record.  Fallible operations return `Except`.
-/

namespace Web

/-- Severity levels of the python `logging` module (the ones this code uses). -/
inductive Level where
  | debug
  | info
  | warning
  | error
  | critical
deriving DecidableEq, Repr

/-- The flask per-request context `g`: a bag of named slots.  The connection
manager only ever touches the key `"db"`; values are connection identifiers. -/
abbrev Ctx := List (String × Nat)

/-- Key lookup on the context, backing python `"db" not in g` and the value
returned by `g.pop("db", None)`. -/
def ctxLookup (g : Ctx) (k : String) : Option Nat :=
  List.lookup k g

/-- Key removal on the context, backing the removal effect of
`g.pop("db", None)` (flask `g` is a dict-like object with unique keys). -/
def ctxRemove (g : Ctx) (k : String) : Ctx :=
  g.filter (fun p => p.1 != k)

/-- The state threaded through the connection manager: the request context
`g`, a fresh-identifier source standing for `create_engine(...).connect()`,
the identifiers of physically open connections, and the log lines emitted so
far (severity level and message). -/
structure DBState where
  g : Ctx
  nextId : Nat
  openConns : List Nat
  logLines : List (Level × String)
deriving DecidableEq, Repr

/-- `get_db` of `src/web/db.py`.  If `"db" not in g` it logs, builds an engine
from the configuration constants, opens a physical connection
(`engine.connect()`, modelled by drawing the fresh identifier `nextId`),
stores it in `g.db` and returns it.  When `g` already holds a connection the
`if` body is skipped and the python function falls through its end,
implicitly returning `None` — hence the `Option` result. -/
def get_db (s : DBState) : DBState × Option Nat :=
  match ctxLookup s.g "db" with
  | none =>
      let con := s.nextId
      ({ g := ("db", con) :: s.g,
         nextId := s.nextId + 1,
         openConns := con :: s.openConns,
         logLines := s.logLines ++ [(Level.info, "Connecting to database")] },
       some con)
  | some _ => (s, none)

/-- `close_db` of `src/web/db.py`.  The python body logs, pops `g.db`, and if
a connection was present logs again and calls `db.close()` with no
`try/except` around it: a failing close escapes `close_db`.  `closeRaises`
says whether `db.close()` raises; the unused teardown argument `e` is
omitted.  The returned state reflects all mutations performed before a
raise. -/
def close_db (closeRaises : Bool) (s : DBState) : DBState × Except String Unit :=
  let s1 : DBState := { s with logLines := s.logLines ++ [(Level.info, "close_db requested")] }
  match ctxLookup s1.g "db" with
  | some h =>
      let s2 : DBState := { s1 with
        g := ctxRemove s1.g "db",
        logLines := s1.logLines ++ [(Level.info, "Closing db connection")] }
      if closeRaises then (s2, Except.error "CloseError")
      else ({ s2 with openConns := s2.openConns.erase h }, Except.ok ())
  | none =>
      ({ s1 with
         g := ctxRemove s1.g "db",
         logLines := s1.logLines ++ [(Level.info, "db connection already closed. No action taken.")] },
       Except.ok ())

/-- The context at the start of a request: empty `g`, nothing open. -/
def initState : DBState :=
  { g := [], nextId := 0, openConns := [], logLines := [] }

/-- One client-visible operation on a request context: flask handlers call
`get_db`, teardown calls `close_db`; a release may find `db.close()`
raising. -/
inductive Op where
  | acquire
  | release (closeRaises : Bool)
deriving DecidableEq, Repr

/-- State transition of one operation (the states these operations reach). -/
def step (s : DBState) (op : Op) : DBState :=
  match op with
  | Op.acquire => (get_db s).1
  | Op.release cf => (close_db cf s).1

/-- Run a sequence of operations from a state. -/
def run (s : DBState) (ops : List Op) : DBState :=
  ops.foldl step s

/-- Number of `"db"` slots the context holds. -/
def dbEntries (g : Ctx) : Nat :=
  g.countP (fun p => p.1 == "db")

/-- The fields of the flask request proxy that the formatter reads. -/
structure RequestCtx where
  url : String
  remote_addr : String
deriving DecidableEq, Repr

/-- The fields of a `logging.LogRecord` that this code touches. -/
structure LogRecord where
  url : Option String
  remote_addr : Option String
  msg : String
deriving DecidableEq, Repr

/-- `RequestFormatter.format` of `src/web/logger.py`: consults
`has_request_context()` (here: whether `reqCtx` is `some`) on each call and
overwrites `record.url` and `record.remote_addr` accordingly — from the
active request when there is one, with `None` otherwise — before delegating
to the parent formatter. -/
def RequestFormatter.format (reqCtx : Option RequestCtx) (record : LogRecord) : LogRecord :=
  match reqCtx with
  | some rc => { record with url := some rc.url, remote_addr := some rc.remote_addr }
  | none => { record with url := none, remote_addr := none }

/-- Observable outcome of the global exception hook: the records it logs and
whether it forwarded to the default hook `sys.__excepthook__`. -/
structure HookResult where
  logged : List (Level × String)
  defaultHookInvoked : Bool
deriving DecidableEq, Repr

/-- `handle_exception` of `src/web/logger.py`, installed as `sys.excepthook`:
a `KeyboardInterrupt` subclass is forwarded to `sys.__excepthook__` and
nothing is logged; every other exception type is logged once at `critical`. -/
def handle_exception (isKeyboardInterrupt : Bool) : HookResult :=
  if isKeyboardInterrupt then { logged := [], defaultHookInvoked := true }
  else { logged := [(Level.critical, "Uncaught exception")], defaultHookInvoked := false }

/-- Environment-style key/value configuration, as read by `os.getenv`. -/
abbrev Env := List (String × String)

/-- `DB_USER = os.getenv("DB_USER", None)` of `src/web/db.py`. -/
def DB_USER (env : Env) : Option String :=
  List.lookup "DB_USER" env

/-- `DB_PASSWORD = os.getenv("DB_PASSWORD", None)` of `src/web/db.py`. -/
def DB_PASSWORD (env : Env) : Option String :=
  List.lookup "DB_PASSWORD" env

/-- `DB_HOST = os.getenv("DB_HOST", None)` of `src/web/db.py`. -/
def DB_HOST (env : Env) : Option String :=
  List.lookup "DB_HOST" env

/-- `DB_PORT = os.getenv("DB_PORT", None)` of `src/web/db.py`. -/
def DB_PORT (env : Env) : Option String :=
  List.lookup "DB_PORT" env

/-- `DB_NAME = os.getenv("DB_NAME", None)` of `src/web/db.py`. -/
def DB_NAME (env : Env) : Option String :=
  List.lookup "DB_NAME" env

/-- `PYTHON_LOG_LEVEL = os.getenv("PYTHON_LOG_LEVEL", "DEBUG")` of
`src/web/logger.py`: unlike the five database variables, absence yields the
default string `"DEBUG"`. -/
def PYTHON_LOG_LEVEL (env : Env) : String :=
  (List.lookup "PYTHON_LOG_LEVEL" env).getD "DEBUG"

/-- Outcome of the liveness query run by the health route. -/
inductive QueryOutcome where
  | ok
  | operationalError
  | otherError
deriving DecidableEq, Repr

/-- Modelled from the spec: the `GET /health` route lives in `src/web/app.py`,
which is absent from the sources (only its tests are present).  Per spec §6
and the tests of `src/web/tests/test_app.py`: a successful liveness query
yields body `"OK"` with status 200; a database-operational error
(`sqlalchemy.exc.OperationalError`) or any other exception yields body
`"BAD"`, also with status 200. -/
def health (q : QueryOutcome) : String × Nat :=
  match q with
  | QueryOutcome.ok => ("OK", 200)
  | QueryOutcome.operationalError => ("BAD", 200)
  | QueryOutcome.otherError => ("BAD", 200)

/-- A concrete request context holding one handle, as left by one `get_db`
call: handle `0` stored in `g` and open, next fresh identifier `1`. -/
def stateWithHandle : DBState :=
  { g := [("db", 0)], nextId := 1, openConns := [0], logLines := [] }

theorem ctxLookup_ctxRemove_self (g : Ctx) (k : String) :
    ctxLookup (ctxRemove g k) k = none := by
  induction g with
  | nil => rfl
  | cons a t ih =>
      obtain ⟨a1, a2⟩ := a
      by_cases h : a1 = k
      · have hb2 : ((a1, a2).1 != k) = false := by simp [bne, h]
        simp only [ctxRemove, List.filter_cons, hb2, Bool.false_eq_true, if_false]
        exact ih
      · have hb : (k == a1) = false := beq_false_of_ne (Ne.symm h)
        have hb2 : ((a1, a2).1 != k) = true := by simp [bne, beq_false_of_ne h]
        simp only [ctxRemove, List.filter_cons, hb2, if_true]
        simp only [ctxLookup, List.lookup, hb]
        exact ih

theorem ctxLookup_ctxRemove_ne (g : Ctx) (k k' : String) (hne : k' ≠ k) :
    ctxLookup (ctxRemove g k) k' = ctxLookup g k' := by
  induction g with
  | nil => rfl
  | cons a t ih =>
      obtain ⟨a1, a2⟩ := a
      by_cases h : a1 = k
      · have hb : (k' == a1) = false := by
          subst h; exact beq_false_of_ne hne
        have hb2 : ((a1, a2).1 != k) = false := by simp [bne, h]
        simp only [ctxRemove, List.filter_cons, hb2, Bool.false_eq_true, if_false]
        have hstep : ctxLookup ((a1, a2) :: t) k' = ctxLookup t k' := by
          simp only [ctxLookup, List.lookup, hb]
        rw [hstep]
        exact ih
      · have hb2 : ((a1, a2).1 != k) = true := by simp [bne, beq_false_of_ne h]
        simp only [ctxRemove, List.filter_cons, hb2, if_true]
        by_cases h2 : k' = a1
        · subst h2
          simp [ctxLookup, List.lookup]
        · have hb : (k' == a1) = false := beq_false_of_ne h2
          simp only [ctxLookup, List.lookup, hb]
          exact ih

theorem ctxRemove_eq_of_lookup_none (g : Ctx) (k : String)
    (h : ctxLookup g k = none) : ctxRemove g k = g := by
  induction g with
  | nil => rfl
  | cons a t ih =>
      obtain ⟨a1, a2⟩ := a
      by_cases hk : k = a1
      · exfalso
        subst hk
        simp [ctxLookup, List.lookup] at h
      · have hb : (k == a1) = false := beq_false_of_ne hk
        simp only [ctxLookup, List.lookup, hb] at h
        have hb2 : ((a1, a2).1 != k) = true := by simp [bne, beq_false_of_ne (Ne.symm hk)]
        simp only [ctxRemove, List.filter_cons, hb2, if_true]
        exact congrArg (List.cons (a1, a2)) (ih h)

theorem countP_eq_zero_of_lookup_none (g : Ctx) (k : String)
    (h : ctxLookup g k = none) : g.countP (fun p => p.1 == k) = 0 := by
  induction g with
  | nil => rfl
  | cons a t ih =>
      obtain ⟨a1, a2⟩ := a
      by_cases hk : k = a1
      · exfalso
        subst hk
        simp [ctxLookup, List.lookup] at h
      · have hb : (k == a1) = false := beq_false_of_ne hk
        simp only [ctxLookup, List.lookup, hb] at h
        have hb3 : (a1 == k) = false := beq_false_of_ne (Ne.symm hk)
        simp [List.countP_cons, hb3, ih h]

theorem countP_ctxRemove (g : Ctx) (k : String) :
    (ctxRemove g k).countP (fun p => p.1 == k) = 0 := by
  rw [List.countP_eq_zero]
  intro a ha
  have h2 := List.of_mem_filter ha
  simp [bne] at h2
  simp [h2]

/-- Whatever `close_db` is given and however the close goes, the resulting
context is the input context with the `"db"` slot popped. -/
theorem close_db_g (cf : Bool) (s : DBState) :
    (close_db cf s).1.g = ctxRemove s.g "db" := by
  cases hl : ctxLookup s.g "db" with
  | none => simp [close_db, hl]
  | some h => cases cf <;> simp [close_db, hl]

/-- Claim C1: a second `get_db` call within the same request context is
claimed (by the spec, and by the function's own docstring) to return the
stored connection handle.  On the code it does not: the second call falls
through the `if "db" not in g` block and implicitly returns `None`.  The
first call returns handle `0`; the second returns `none` — while indeed not
opening a second physical connection. -/
theorem C1_second_acquire_returns_none :
    (get_db initState).2 = some 0 ∧
    (get_db (get_db initState).1).2 = none ∧
    (get_db (get_db initState).1).1.openConns.length = 1 := by
  refine ⟨rfl, rfl, rfl⟩

/-- Claim C2: the health endpoint answers body `"OK"` with status 200 when
the liveness query succeeds, and body `"BAD"` with status 200 when the query
raises a database-operational error or any other exception; the status code
is 200 in every case, so failure is never signalled via the status code. -/
theorem C2_health_body_and_status (q : QueryOutcome) :
    (health q).2 = 200 ∧
    (health q).1 = (if q = QueryOutcome.ok then "OK" else "BAD") := by
  cases q <;> exact ⟨rfl, rfl⟩

/-- Claim C3 is false on the code: `close_db` wraps no `try/except` around
`db.close()`.  At a concrete context holding a handle whose close raises,
the full result of the call shows the exception escaping `close_db` to its
caller, and its log output holding only the two info lines emitted before
the close attempt — no record of the failure and no swallowing. -/
theorem C3_close_failure_propagates :
    close_db true stateWithHandle =
      ({ g := [],
         nextId := 1,
         openConns := [0],
         logLines := [(Level.info, "close_db requested"),
                      (Level.info, "Closing db connection")] },
       Except.error "CloseError") := by
  rfl

/-- Claim C3 as amended: when closing the held connection fails, `close_db`
re-raises — the error reaches its caller — although the handle has already
been removed from the context by then; the call logs only the two info lines
preceding the close attempt, so the failure itself is not logged by
`close_db`. -/
theorem C3_amended_close_failure_escapes (s : DBState) (h : Nat)
    (hdb : ctxLookup s.g "db" = some h) :
    (close_db true s).2 = Except.error "CloseError" ∧
    ctxLookup (close_db true s).1.g "db" = none ∧
    (close_db true s).1.logLines =
      s.logLines ++ [(Level.info, "close_db requested"),
                     (Level.info, "Closing db connection")] := by
  refine ⟨?_, ?_, ?_⟩
  · simp [close_db, hdb]
  · rw [close_db_g]
    exact ctxLookup_ctxRemove_self s.g "db"
  · simp [close_db, hdb]

theorem C3_amended_witness :
    (close_db true stateWithHandle).2 = Except.error "CloseError" ∧
    ctxLookup (close_db true stateWithHandle).1.g "db" = none ∧
    (close_db true stateWithHandle).1.logLines =
      stateWithHandle.logLines ++
        [(Level.info, "close_db requested"),
         (Level.info, "Closing db connection")] :=
  C3_amended_close_failure_escapes stateWithHandle 0 rfl

/-- Claim C4: releasing a held handle removes it from the context, closes it
exactly once (one occurrence erased from the open-connection set), raises
nothing, and a subsequent acquire in the same context opens a fresh handle —
`nextId`, distinct from the closed one — rather than returning it. -/
theorem C4_release_closes_then_fresh_acquire (s : DBState) (h : Nat)
    (hdb : ctxLookup s.g "db" = some h) (hlt : h < s.nextId) :
    ctxLookup (close_db false s).1.g "db" = none ∧
    (close_db false s).1.openConns = s.openConns.erase h ∧
    (close_db false s).2 = Except.ok () ∧
    (get_db (close_db false s).1).2 = some s.nextId ∧
    s.nextId ≠ h := by
  have hg := close_db_g false s
  refine ⟨?_, ?_, ?_, ?_, ?_⟩
  · rw [hg]
    exact ctxLookup_ctxRemove_self s.g "db"
  · simp [close_db, hdb]
  · simp [close_db, hdb]
  · have hnone : ctxLookup (close_db false s).1.g "db" = none := by
      rw [hg]
      exact ctxLookup_ctxRemove_self s.g "db"
    have hnext : (close_db false s).1.nextId = s.nextId := by
      simp [close_db, hdb]
    simp [get_db, hnone, hnext]
  · exact Ne.symm (Nat.ne_of_lt hlt)

theorem C4_witness :
    ctxLookup (close_db false stateWithHandle).1.g "db" = none ∧
    (close_db false stateWithHandle).1.openConns = stateWithHandle.openConns.erase 0 ∧
    (close_db false stateWithHandle).2 = Except.ok () ∧
    (get_db (close_db false stateWithHandle).1).2 = some stateWithHandle.nextId ∧
    stateWithHandle.nextId ≠ 0 :=
  C4_release_closes_then_fresh_acquire stateWithHandle 0 rfl (by decide)

/-- Claim C5: releasing when the context holds no handle changes nothing but
the log: the context, the fresh-identifier source and the open connections
are untouched, no exception is raised, and two info-level (diagnostic) log
lines are emitted, the second announcing that no action was taken. -/
theorem C5_release_without_handle_noop (s : DBState) (cf : Bool)
    (hdb : ctxLookup s.g "db" = none) :
    close_db cf s =
      ({ s with logLines := s.logLines ++
          [(Level.info, "close_db requested"),
           (Level.info, "db connection already closed. No action taken.")] },
       Except.ok ()) := by
  have h1 : ctxRemove s.g "db" = s.g := ctxRemove_eq_of_lookup_none s.g "db" hdb
  simp [close_db, hdb, h1]

theorem C5_witness :
    close_db false initState =
      ({ initState with logLines := initState.logLines ++
          [(Level.info, "close_db requested"),
           (Level.info, "db connection already closed. No action taken.")] },
       Except.ok ()) :=
  C5_release_without_handle_noop initState false rfl

/-- Claim C6: the formatter fills the record's url and remote-address fields
from the active request context when one is present and sets both to the
absent marker `none` otherwise, leaving the message alone; the context is
consulted freshly on each call — formatting again under a different context
fully overrides whatever an earlier call wrote, so nothing is cached. -/
theorem C6_formatter_request_fields (ctx : Option RequestCtx) (r : LogRecord) :
    (RequestFormatter.format ctx r).url = Option.map RequestCtx.url ctx ∧
    (RequestFormatter.format ctx r).remote_addr = Option.map RequestCtx.remote_addr ctx ∧
    (RequestFormatter.format ctx r).msg = r.msg ∧
    ∀ ctx0 : Option RequestCtx,
      RequestFormatter.format ctx (RequestFormatter.format ctx0 r) =
        RequestFormatter.format ctx r := by
  refine ⟨?_, ?_, ?_, ?_⟩
  · cases ctx <;> rfl
  · cases ctx <;> rfl
  · cases ctx <;> rfl
  · intro ctx0
    cases ctx <;> cases ctx0 <;> rfl

/-- Claim C7: on a `KeyboardInterrupt` the hook logs nothing and hands the
exception to the default hook unmodified; on any other uncaught exception it
emits exactly one record, at critical severity, and does not invoke the
default hook. -/
theorem C7_uncaught_exception_hook (ki : Bool) :
    (handle_exception ki).logged =
      cond ki [] [(Level.critical, "Uncaught exception")] ∧
    (handle_exception ki).logged.length = cond ki 0 1 ∧
    (handle_exception ki).defaultHookInvoked = ki := by
  cases ki <;> exact ⟨rfl, rfl, rfl⟩

/-- One step keeps the context holding at most one `"db"` slot: `get_db`
stores a handle only when none is present, and `close_db` pops the slot. -/
theorem dbEntries_step_le (s : DBState) (op : Op) (h : dbEntries s.g ≤ 1) :
    dbEntries (step s op).g ≤ 1 := by
  cases op with
  | acquire =>
      cases hl : ctxLookup s.g "db" with
      | none =>
          have h0 : s.g.countP (fun p => p.1 == "db") = 0 :=
            countP_eq_zero_of_lookup_none s.g "db" hl
          simp [step, get_db, hl, dbEntries, List.countP_cons, h0]
      | some v =>
          simpa [step, get_db, hl] using h
  | release cf =>
      have hg : (close_db cf s).1.g = ctxRemove s.g "db" := close_db_g cf s
      simp only [step, hg, dbEntries, countP_ctxRemove]
      exact Nat.zero_le 1

/-- The at-most-one-slot property is preserved along any run. -/
theorem run_dbEntries_le (ops : List Op) :
    ∀ s : DBState, dbEntries s.g ≤ 1 → dbEntries (run s ops).g ≤ 1 := by
  induction ops with
  | nil => exact fun s h => h
  | cons op t ih =>
      intro s h
      exact ih (step s op) (dbEntries_step_le s op h)

/-- Claim C8: in every state reachable by any sequence of acquire/release
operations from the start of a request, the context holds at most one
connection handle: no interleaving of `get_db` and `close_db` calls ever
leaves two simultaneously held handles in one request context. -/
theorem C8_at_most_one_handle (ops : List Op) :
    dbEntries (run initState ops).g ≤ 1 :=
  run_dbEntries_le ops initState (Nat.zero_le 1)

/-- Claim C9 is false for the log level: with `PYTHON_LOG_LEVEL` absent from
the environment, reading it yields the non-empty default `"DEBUG"` — a
concrete value, not the empty/absent marker the claim promises for every
variable of the set. -/
theorem C9_log_level_absent_yields_default :
    PYTHON_LOG_LEVEL [] = "DEBUG" ∧ PYTHON_LOG_LEVEL [] ≠ "" := by
  exact ⟨rfl, by decide⟩

/-- Claim C9 as amended: reading configuration with a variable absent never
raises: each of the five `DB_*` variables yields the absent marker `none`,
while the log level yields its declared default `"DEBUG"`. -/
theorem C9_amended_absent_config (env : Env)
    (h1 : List.lookup "DB_USER" env = none)
    (h2 : List.lookup "DB_PASSWORD" env = none)
    (h3 : List.lookup "DB_HOST" env = none)
    (h4 : List.lookup "DB_PORT" env = none)
    (h5 : List.lookup "DB_NAME" env = none)
    (h6 : List.lookup "PYTHON_LOG_LEVEL" env = none) :
    DB_USER env = none ∧ DB_PASSWORD env = none ∧ DB_HOST env = none ∧
    DB_PORT env = none ∧ DB_NAME env = none ∧ PYTHON_LOG_LEVEL env = "DEBUG" := by
  refine ⟨h1, h2, h3, h4, h5, ?_⟩
  simp [PYTHON_LOG_LEVEL, h6]

theorem C9_amended_witness :
    DB_USER [] = none ∧ DB_PASSWORD [] = none ∧ DB_HOST [] = none ∧
    DB_PORT [] = none ∧ DB_NAME [] = none ∧ PYTHON_LOG_LEVEL [] = "DEBUG" :=
  C9_amended_absent_config [] rfl rfl rfl rfl rfl rfl

/-- Claim C10: `close_db` pops the handle from the context before attempting
the close, so after every call — whether `db.close()` raises or not — the
context holds no handle, and entries stored under any other key are exactly
as before. -/
theorem C10_release_frame (s : DBState) (cf : Bool) (k : String)
    (hk : k ≠ "db") :
    ctxLookup (close_db cf s).1.g "db" = none ∧
    ctxLookup (close_db cf s).1.g k = ctxLookup s.g k := by
  have hg : (close_db cf s).1.g = ctxRemove s.g "db" := close_db_g cf s
  rw [hg]
  exact ⟨ctxLookup_ctxRemove_self s.g "db",
         ctxLookup_ctxRemove_ne s.g "db" k hk⟩

theorem C10_witness :
    ctxLookup (close_db true stateWithHandle).1.g "db" = none ∧
    ctxLookup (close_db true stateWithHandle).1.g "x" = ctxLookup stateWithHandle.g "x" :=
  C10_release_frame stateWithHandle true "x" (by decide)

end Web
